import Mathlib

/-
Verification of the build-preparation scripts in `buildutils/`
(`add-client-files.py` and `buildutils.py`): a shallow embedding of the
pure logic of the fetch/verify/filter/repackage pipeline, followed by
theorems settling the specification's claims about it.

Conventions of the embedding:
  * Python `str` is Lean `String` (both compare lexicographically by
    code point).
  * Python `int` is Lean `Int` (arbitrary precision in both).
  * A Python function that can raise is embedded as a function into
    `Option`/`Except`/a pair with an error component; `none`/`.error`
    marks the raise.
  * Stateful objects become explicit state records threaded through the
    functions that mutate them.
-/

namespace Buildutils

/-! ## Tar entries and `Main._normalize_tar_entry`

`tarfile.TarInfo` is embedded as a record of the fields the scripts
touch or that the frame claims talk about.  `typ` stands for
`TarInfo.type` and `mtime` is an `Int` exactly as in Python. -/

structure TarEntry where
  name : String
  size : Nat
  mode : Nat
  typ : Nat
  linkname : String
  uid : Nat
  gid : Nat
  uname : String
  gname : String
  mtime : Int
  devmajor : Nat
  devminor : Nat
  deriving Repr, DecidableEq

/-- Embedding of `Main._normalize_tar_entry` (add-client-files.py,
lines 344-360).  `reference_timestamp` is the `Main` attribute set in
`__init__`: `int(os.environ['SOURCE_DATE_EPOCH'])` when that variable is
present, and the sentinel `-1` ("not set") otherwise.  The method sets
`uid`/`gid` to 65534, `uname`/`gname` to `nobody`/`nogroup`, and clamps
`mtime` to `reference_timestamp` when the timestamp is set and `mtime`
exceeds it. -/
def normalize_tar_entry (reference_timestamp : Int) (entry : TarEntry) : TarEntry :=
  { entry with
      uid := 65534
      gid := 65534
      mtime :=
        if reference_timestamp ≠ -1 ∧ entry.mtime > reference_timestamp then
          reference_timestamp
        else
          entry.mtime
      uname := "nobody"
      gname := "nogroup" }

/-! ## `Main.want_file_from_runtime` and its allow-lists

The static tuples at the top of add-client-files.py (lines 53-116). -/

def BOOTSTRAP_RUNTIME_AMD64_BIN : List String :=
  ["steam-runtime-check-requirements",
   "steam-runtime-identify-library-abi",
   "steam-runtime-launch-client",
   "srt-logger"]

def BOOTSTRAP_RUNTIME_AMD64_SONAMES : List String :=
  ["libcap.so.2", "libelf.so.1", "libffi.so.6", "libgio-2.0.so.0",
   "libglib-2.0.so.0", "libgmodule-2.0.so.0", "libgobject-2.0.so.0",
   "libpcre.so.3", "libselinux.so.1", "libz.so.1"]

def BOOTSTRAP_RUNTIME_AMD64_PATTERNS : List String :=
  ["libelf-*.so"]

def BOOTSTRAP_RUNTIME_I386_SONAMES : List String :=
  ["libX11-xcb.so.1", "libX11.so.6", "libXau.so.6", "libXdamage.so.1",
   "libXdmcp.so.6", "libXext.so.6", "libXfixes.so.3", "libXxf86vm.so.1",
   "libcom_err.so.2", "libcurl-gnutls.so.4", "libexpat.so.1",
   "libffi.so.6", "libgcc_s.so.1", "libgcrypt.so.11", "libgmp.so.10",
   "libgnutls.so.30", "libgssapi_krb5.so.2", "libhogweed.so.4",
   "libidn.so.11", "libk5crypto.so.3", "libkeyutils.so.1",
   "libkrb5.so.3", "libkrb5support.so.0", "libnettle.so.6",
   "libp11-kit.so.0", "librtmp.so.0", "libstdc++.so.6", "libtasn1.so.6",
   "libtinfo.so.5", "libxcb-dri2.so.0", "libxcb-dri3.so.0",
   "libxcb-glx.so.0", "libxcb-present.so.0", "libxcb-sync.so.1",
   "libxcb.so.1", "libz.so.1"]

def BOOTSTRAP_RUNTIME_LIBEXEC_SRT : List String :=
  ["srt-bwrap", "srt-logger", "logger-0.bash"]

/-- Embedding of `fnmatch.fnmatch(s, pattern)` on a POSIX platform for
the patterns actually used by the script (which contain `*` and literal
characters only, no `?` or character classes beyond what is embedded
here): `*` matches any (possibly empty) run of characters, `?` matches
exactly one character, any other pattern character matches itself. -/
def globMatchFuel : Nat → List Char → List Char → Bool
  | 0, _, _ => false
  | _ + 1, [], [] => true
  | _ + 1, [], _ :: _ => false
  | fuel + 1, '*' :: ps, [] => globMatchFuel fuel ps []
  | fuel + 1, '*' :: ps, c :: cs =>
    globMatchFuel fuel ps (c :: cs) || globMatchFuel fuel ('*' :: ps) cs
  | fuel + 1, '?' :: ps, _ :: cs => globMatchFuel fuel ps cs
  | fuel + 1, p :: ps, c :: cs => p == c && globMatchFuel fuel ps cs
  | _ + 1, _ :: _, [] => false

/-- Each recursive step of `globMatchFuel` strictly decreases
`pattern.length + string.length`, so this fuel value is enough for the
recursion never to bottom out: the function computes the usual
unbounded glob match. -/
def globMatchChars (ps s : List Char) : Bool :=
  globMatchFuel (ps.length + s.length + 1) ps s

def fnmatch (s : String) (pat : String) : Bool :=
  globMatchChars pat.toList s.toList

/-- Embedding of Python `value in ('a', 'b', ...)`. -/
def pyIn {α : Type} [DecidableEq α] (x : α) (xs : List α) : Bool :=
  xs.contains x

/-- Embedding of Python `s.startswith(pre)`, character by character. -/
def pyStartsWith (s pre : String) : Bool :=
  pre.toList.isPrefixOf s.toList

/-- The soname test used in `want_file_from_runtime`:
`path_parts[-1] == soname or path_parts[-1].startswith(soname + '.')`. -/
def sonameMatches (lastPart soname : String) : Bool :=
  lastPart == soname || pyStartsWith lastPart (soname ++ ".")

/-- Embedding of `Main.want_file_from_runtime` (add-client-files.py,
lines 362-431).  The Python body begins with `path_parts[0]`, which
raises `IndexError` when `path_parts` is the empty list; that raise is
embedded as `none`.  On any non-empty list the body runs to one of its
`return` statements, embedded as `some b`.  `path_parts[:-1]` is
`List.dropLast` and `path_parts[-1]` is the last element (defaulted to
`""`; the default is only read in branches whose guard already forces
the list to be long enough). -/
def want_file_from_runtime (path_parts : List String) : Option Bool :=
  match path_parts with
  | [] => none
  | p0 :: _ =>
    if pyIn p0
        ["COPYING", "README.txt", "built-using.txt", "common-licenses",
         "manifest.deb822.gz", "manifest.txt", "run.sh", "scripts",
         "setup.sh", "version.txt"] then
      some true
    else
      let parts := if p0 = "usr" then path_parts.tail else path_parts
      let lastPart := parts.getLastD ""
      if pyIn parts.dropLast
          [["lib", "i386-linux-gnu"],
           ["lib", "i386-linux-gnu", "steam-runtime-tools-0"]] then
        some (BOOTSTRAP_RUNTIME_I386_SONAMES.any (sonameMatches lastPart))
      else if pyIn parts.dropLast
          [["lib", "x86_64-linux-gnu"],
           ["lib", "x86_64-linux-gnu", "steam-runtime-tools-0"]] then
        some (BOOTSTRAP_RUNTIME_AMD64_PATTERNS.any (fnmatch lastPart)
          || BOOTSTRAP_RUNTIME_AMD64_SONAMES.any (sonameMatches lastPart))
      else if parts.dropLast = ["amd64", "usr", "bin"] then
        some (pyIn lastPart BOOTSTRAP_RUNTIME_AMD64_BIN)
      else if parts.dropLast = ["libexec", "steam-runtime-tools-0"] then
        some (pyIn lastPart BOOTSTRAP_RUNTIME_LIBEXEC_SRT)
      else if pyIn parts
          [["amd64", "lib"], ["amd64", "usr", "lib"],
           ["amd64", "usr", "libexec"], ["amd64", "usr", "share"]] then
        some true
      else
        some false

/-! ## `Main.build_bootstrap`: the extraction loop (lines 499-512)

The loop streams tar entries in order; for each entry it computes
`bits = info.name.split('/')`, raises `ValueError` when `bits[0]` is not
`'steam-runtime'`, raises `ValueError` when `'..' in bits`, and
otherwise extracts the entry exactly when
`want_file_from_runtime(bits[1:])` returns `True`.  The spec's
`PathSafetyError` names these two `ValueError` raises. -/

/-- Embedding of Python `s.split('/')`: splits on every separator
occurrence without collapsing, so the result is always non-empty and
`''.split('/') == ['']`. -/
def pySplitSlashAux : List Char → List Char → List String
  | [], acc => [String.mk acc.reverse]
  | c :: rest, acc =>
    if c = '/' then
      String.mk acc.reverse :: pySplitSlashAux rest []
    else
      pySplitSlashAux rest (c :: acc)

def pySplitSlash (s : String) : List String :=
  pySplitSlashAux s.toList []

inductive ExtractError where
  /-- Raised as `ValueError(f'{info.name} is not in steam-runtime/')`. -/
  | notInTop (name : String)
  /-- Raised as `ValueError(f'{info.name} has path traversal')`. -/
  | traversal (name : String)
  /-- Models the `IndexError` raised by `want_file_from_runtime` on an empty
  segment list (an entry named exactly `steam-runtime`) -/
  | indexErr (name : String)
  deriving Repr, DecidableEq

/-- Python `bits[0]` for `bits = info.name.split('/')` (always defined:
`split` never returns an empty list). -/
def firstSegment (name : String) : String :=
  (pySplitSlash name).headD ""

/-- Python `'..' in bits`. -/
def hasDotDot (name : String) : Bool :=
  (pySplitSlash name).contains ".."

/-- Python `bits[1:]`. -/
def restSegments (name : String) : List String :=
  (pySplitSlash name).tail

/-- The error the loop raises for an entry that fails the path-safety
checks, in the order the code tests them. -/
def pathSafetyErrorOf (name : String) : ExtractError :=
  if firstSegment name ≠ "steam-runtime" then
    ExtractError.notInTop name
  else
    ExtractError.traversal name

/-- An entry that the loop processes without raising: its first path
segment is `steam-runtime`, no segment is `..`, and the allow predicate
returns normally on the remaining segments. -/
def entryOk (name : String) : Prop :=
  firstSegment name = "steam-runtime" ∧
  hasDotDot name = false ∧
  (want_file_from_runtime (restSegments name)).isSome

/-- Embedding of the extraction loop of `Main.build_bootstrap`
(add-client-files.py, lines 499-512) over the ordered list of archive
entry names.  Returns the names extracted (in order) together with the
error that aborted the loop, if any; entries after a raise are never
reached. -/
def extractLoop : List String → List String × Option ExtractError
  | [] => ([], none)
  | name :: rest =>
    if firstSegment name ≠ "steam-runtime" then
      ([], some (ExtractError.notInTop name))
    else if hasDotDot name then
      ([], some (ExtractError.traversal name))
    else
      match want_file_from_runtime (restSegments name) with
      | none => ([], some (ExtractError.indexErr name))
      | some true =>
        let r := extractLoop rest
        (name :: r.1, r.2)
      | some false => extractLoop rest

/-! ## `SteamClient.download_client`: per-asset integrity verification

Lines 183-216 of buildutils.py: after streaming an asset through a
`HashingWriter`, the code compares the accumulated sha256 hex digest
with `value['sha2']`, logging a warning and (if `strict`) raising
`ValueError('sha256 mismatch')`; if that did not raise, it compares the
accumulated size with `int(value['size'])`, logging a warning and (if
`strict`) raising `ValueError('size mismatch (sha256 collision?!)')`.
The spec's `IntegrityError` names these `ValueError` raises. -/

inductive IntegrityWarning where
  | hashMismatch
  | sizeMismatch
  deriving Repr, DecidableEq

/-- Embedding of the two checks.  `gotSha`/`gotSize` are the
`HashingWriter`'s accumulated hex digest and byte count, `expectedSha`
is the manifest's `sha2` field, `expectedSize` is `int(value['size'])`.
Result: the warnings logged, in order, and the `ValueError` message if
one was raised. -/
def verifyAsset (gotSha expectedSha : String) (gotSize expectedSize : Nat)
    (strict : Bool) : List IntegrityWarning × Option String :=
  if gotSha ≠ expectedSha then
    if strict then
      ([IntegrityWarning.hashMismatch], some "sha256 mismatch")
    else if gotSize ≠ expectedSize then
      ([IntegrityWarning.hashMismatch, IntegrityWarning.sizeMismatch], none)
    else
      ([IntegrityWarning.hashMismatch], none)
  else if gotSize ≠ expectedSize then
    if strict then
      ([IntegrityWarning.sizeMismatch],
       some "size mismatch (sha256 collision?!)")
    else
      ([IntegrityWarning.sizeMismatch], none)
  else
    ([], none)

/-! ## `PinnedRuntimeVersion` comparisons (buildutils.py, lines 543-615)

`archive : Nat` stands for the object identity of the owning
`RuntimeArchive` (`self.archive is other.archive`).  The comparison
special methods can raise `TypeError`, embedded as `Except Unit` with
`.error ()` standing for the raise; the `other` operand is always a pin
here, so the `isinstance` guards are always satisfied. -/

structure PinnedRuntimeVersion where
  version : String
  archive : Nat
  deriving Repr, DecidableEq

/-- Method `__eq__`: returns a boolean, `True` only when the versions agree
and the owning archives are the same object; it never raises. -/
def pinEq (p q : PinnedRuntimeVersion) : Bool :=
  p.version == q.version && p.archive == q.archive

/-- Method `__lt__`: raises `TypeError` when the owning archives differ,
otherwise plain string comparison of the version strings. -/
def pinLt (p q : PinnedRuntimeVersion) : Except Unit Bool :=
  if p.archive ≠ q.archive then
    Except.error ()
  else
    Except.ok (decide (p.version < q.version))

/-- Method `__le__`: `self == other or self < other` (short-circuit `or`). -/
def pinLe (p q : PinnedRuntimeVersion) : Except Unit Bool :=
  if pinEq p q then Except.ok true else pinLt p q

/-- Method `__gt__`: `other < self`. -/
def pinGt (p q : PinnedRuntimeVersion) : Except Unit Bool :=
  pinLt q p

/-- Method `__ge__`: `self == other or other < self` (short-circuit `or`). -/
def pinGe (p q : PinnedRuntimeVersion) : Except Unit Bool :=
  if pinEq p q then Except.ok true else pinLt q p

/-! ## `Main.build_bootstrap`: deterministic repackaging (lines 514-543)

The code walks the staged `bootstrap` tree collecting every directory
and file as a path relative to the root (`members`), then iterates
`sorted(members)` and adds each member non-recursively with
`arcname=member` and `filter=self._normalize_tar_entry`.  The walk
order of `os.walk` is filesystem-dependent, so two runs over
byte-identical staging content are embedded as two member lists that
are permutations of each other, with the same metadata function
`staging` (what `tar_writer.add` reads from disk for each member; the
added entry's name is the `arcname`, i.e. the member path itself). -/

def repackage (reference_timestamp : Int) (staging : String → TarEntry)
    (members : List String) : List TarEntry :=
  (members.insertionSort (· ≤ ·)).map
    (fun m => normalize_tar_entry reference_timestamp
      { staging m with name := m })

/-! ## `SteamClient.load_manifest` (buildutils.py, lines 352-383)

After reading the manifest the code runs
`self.version = str(self.manifest_content['ubuntu12']['version'])` and

    try:
        timestamp = int(self.version)
    except ValueError:
        self.datetime = None
    else:
        self.datetime = datetime.datetime.fromtimestamp(
            timestamp, datetime.timezone.utc)

The `else` clause runs outside the `except`, so an exception raised by
`fromtimestamp` itself (a timestamp whose UTC date falls outside
`datetime`'s years 1..9999) propagates out of `load_manifest`. -/

/-- The ASCII whitespace characters `int()` strips; 11 and 12 are
vertical tab and form feed. -/
def isPySpace (c : Char) : Bool :=
  c ∈ [' ', '\t', '\n', '\r', Char.ofNat 11, Char.ofNat 12]

/-- Value of a run of decimal digits possibly separated by single
underscores (each underscore must sit between two digits), as accepted
by Python's `int()`; the first character is known to be a digit. -/
def pyDigitsVal : Nat → List Char → Option Nat
  | acc, [] => some acc
  | acc, c :: rest =>
    if c.isDigit then
      pyDigitsVal (acc * 10 + (c.toNat - 48)) rest
    else if c = '_' then
      match rest with
      | [] => none
      | d :: rest2 =>
        if d.isDigit then
          pyDigitsVal (acc * 10 + (d.toNat - 48)) rest2
        else
          none
    else
      none

/-- Embedding of Python `int(s)` in base 10 for ASCII inputs: strip
surrounding whitespace, accept an optional sign followed by decimal
digits with single underscores between digits; anything else raises
`ValueError`, embedded as `none`.  (CPython additionally accepts
non-ASCII unicode digits and whitespace; the version strings at issue
are ASCII.) -/
def pyIntOfString? (s : String) : Option Int :=
  let cs :=
    ((s.toList.dropWhile isPySpace).reverse.dropWhile isPySpace).reverse
  match cs with
  | [] => none
  | '+' :: rest =>
    match rest with
    | [] => none
    | d :: _ =>
      if d.isDigit then (pyDigitsVal 0 rest).map Int.ofNat else none
  | '-' :: rest =>
    match rest with
    | [] => none
    | d :: _ =>
      if d.isDigit then (pyDigitsVal 0 rest).map (fun n => -(n : Int))
      else none
  | d :: _ =>
    if d.isDigit then (pyDigitsVal 0 cs).map Int.ofNat else none

structure UtcDateTime where
  year : Int
  month : Int
  day : Int
  hour : Int
  minute : Int
  second : Int
  deriving Repr, DecidableEq

/-- Proleptic-Gregorian date for a day count relative to the Unix epoch
(1970-01-01 is day 0); the standard civil-from-days algorithm.  All
divisions act on non-negative operands, so truncating `Int` division is
floor division there. -/
def civilFromDays (dayNumber : Int) : Int × Int × Int :=
  let z := dayNumber + 719468
  let era := z.fdiv 146097
  let doe := z - era * 146097
  let yoe := (doe - doe / 1460 + doe / 36524 - doe / 146096) / 365
  let y := yoe + era * 400
  let doy := doe - (365 * yoe + yoe / 4 - yoe / 100)
  let mp := (5 * doy + 2) / 153
  let d := doy - (153 * mp + 2) / 5 + 1
  let m := mp + (if mp < 10 then (3 : Int) else -9)
  (if m ≤ 2 then y + 1 else y, m, d)

/-- Embedding of
`datetime.datetime.fromtimestamp(t, datetime.timezone.utc)`: the
conversion succeeds exactly when the resulting UTC datetime lies in
`datetime`'s representable years 1..9999, that is for
`-62135596800 ≤ t ≤ 253402300799` (the timestamps of
0001-01-01T00:00:00 and 9999-12-31T23:59:59); outside that range
CPython raises, embedded as `none`. -/
def fromtimestampUtc? (t : Int) : Option UtcDateTime :=
  if -62135596800 ≤ t ∧ t ≤ 253402300799 then
    let days := t.fdiv 86400
    let secs := t.fmod 86400
    let c := civilFromDays days
    some ⟨c.1, c.2.1, c.2.2, secs / 3600, (secs % 3600) / 60, secs % 60⟩
  else
    none

/-- Embedding of the build-version/build-date logic of
`SteamClient.load_manifest` as a function of the manifest's version
string: the value recorded in `self.datetime` (`.ok`), or the
exception that `fromtimestamp` raised past the `except ValueError`
handler (`.error ()`, uncaught because the handler guards only the
`int()` call). -/
def load_manifest_datetime (version : String) :
    Except Unit (Option UtcDateTime) :=
  match pyIntOfString? version with
  | none => Except.ok none
  | some timestamp =>
    match fromtimestampUtc? timestamp with
    | some dt => Except.ok (some dt)
    | none => Except.error ()

/-! ## `HashingWriter` (buildutils.py, lines 46-66)

`HashingWriter` wraps a file writer: `write(blob)` adds `len(blob)` to
`self.size`, feeds the blob to a `hashlib.sha256()` object and to the
file, and returns `len(blob)`; the `sha256` property is
`self._sha256.hexdigest()`.  Bytes are `Nat` values; `hashlib.sha256`
is embedded as the byte sequence fed so far, with `hexdigest` computed
by the SHA-256 implementation below (FIPS 180-4). -/

def w32 (n : Nat) : Nat := n % 4294967296

def rotr32 (n x : Nat) : Nat := w32 ((x >>> n) ||| (x <<< (32 - n)))

def bsig0 (x : Nat) : Nat := rotr32 2 x ^^^ rotr32 13 x ^^^ rotr32 22 x

def bsig1 (x : Nat) : Nat := rotr32 6 x ^^^ rotr32 11 x ^^^ rotr32 25 x

def ssig0 (x : Nat) : Nat := rotr32 7 x ^^^ rotr32 18 x ^^^ (x >>> 3)

def ssig1 (x : Nat) : Nat := rotr32 17 x ^^^ rotr32 19 x ^^^ (x >>> 10)

def chFn (x y z : Nat) : Nat := (x &&& y) ^^^ ((x ^^^ 4294967295) &&& z)

def majFn (x y z : Nat) : Nat := (x &&& y) ^^^ (x &&& z) ^^^ (y &&& z)

def SHA256_H0 : List Nat :=
  [1779033703, 3144134277, 1013904242, 2773480762,
   1359893119, 2600822924, 528734635, 1541459225]

def SHA256_K : List Nat :=
  [1116352408, 1899447441, 3049323471, 3921009573,
   961987163, 1508970993, 2453635748, 2870763221,
   3624381080, 310598401, 607225278, 1426881987,
   1925078388, 2162078206, 2614888103, 3248222580,
   3835390401, 4022224774, 264347078, 604807628,
   770255983, 1249150122, 1555081692, 1996064986,
   2554220882, 2821834349, 2952996808, 3210313671,
   3336571891, 3584528711, 113926993, 338241895,
   666307205, 773529912, 1294757372, 1396182291,
   1695183700, 1986661051, 2177026350, 2456956037,
   2730485921, 2820302411, 3259730800, 3345764771,
   3516065817, 3600352804, 4094571909, 275423344,
   430227734, 506948616, 659060556, 883997877,
   958139571, 1322822218, 1537002063, 1747873779,
   1955562222, 2024104815, 2227730452, 2361852424,
   2428436474, 2756734187, 3204031479, 3329325298]

/-- The `count` bytes of `n`, big-endian. -/
def beBytes : Nat → Nat → List Nat
  | 0, _ => []
  | count + 1, n => beBytes count (n / 256) ++ [n % 256]

/-- SHA-256 message padding: a `0x80` byte, zeros to 56 mod 64, then
the bit length as 8 big-endian bytes. -/
def sha256Pad (msg : List Nat) : List Nat :=
  msg ++ 128 :: List.replicate ((119 - msg.length % 64) % 64) 0
    ++ beBytes 8 ((8 * msg.length) % 18446744073709551616)

/-- Big-endian 32-bit words of a byte list. -/
def words32 : List Nat → List Nat
  | b0 :: b1 :: b2 :: b3 :: rest =>
    (((b0 * 256 + b1) * 256 + b2) * 256 + b3) :: words32 rest
  | _ => []

def chunks64 : List Nat → List (List Nat)
  | [] => []
  | b :: rest => ((b :: rest).take 64) :: chunks64 ((b :: rest).drop 64)
termination_by bs => bs.length
decreasing_by simp [List.length_drop]; omega

/-- Extend the 16-word message schedule by `count` words. -/
def extendSchedule : List Nat → Nat → List Nat
  | ws, 0 => ws
  | ws, count + 1 =>
    extendSchedule
      (ws ++ [w32 (ssig1 (ws.getD (ws.length - 2) 0)
        + ws.getD (ws.length - 7) 0
        + ssig0 (ws.getD (ws.length - 15) 0)
        + ws.getD (ws.length - 16) 0)])
      count

structure Sha256State where
  a : Nat
  b : Nat
  c : Nat
  d : Nat
  e : Nat
  f : Nat
  g : Nat
  h : Nat

def sha256Round (s : Sha256State) (kw : Nat × Nat) : Sha256State :=
  let t1 := w32 (s.h + bsig1 s.e + chFn s.e s.f s.g + kw.1 + kw.2)
  let t2 := w32 (bsig0 s.a + majFn s.a s.b s.c)
  ⟨w32 (t1 + t2), s.a, s.b, s.c, w32 (s.d + t1), s.e, s.f, s.g⟩

def sha256Compress (hs : List Nat) (chunk : List Nat) : List Nat :=
  let ws := extendSchedule (words32 chunk) 48
  let s0 : Sha256State :=
    ⟨hs.getD 0 0, hs.getD 1 0, hs.getD 2 0, hs.getD 3 0,
     hs.getD 4 0, hs.getD 5 0, hs.getD 6 0, hs.getD 7 0⟩
  let s := (SHA256_K.zip ws).foldl sha256Round s0
  [w32 (hs.getD 0 0 + s.a), w32 (hs.getD 1 0 + s.b),
   w32 (hs.getD 2 0 + s.c), w32 (hs.getD 3 0 + s.d),
   w32 (hs.getD 4 0 + s.e), w32 (hs.getD 5 0 + s.f),
   w32 (hs.getD 6 0 + s.g), w32 (hs.getD 7 0 + s.h)]

def hexDigitChar (n : Nat) : Char :=
  if n < 10 then Char.ofNat (48 + n) else Char.ofNat (87 + n)

def word32Hex (n : Nat) : List Char :=
  (List.range 8).map (fun i => hexDigitChar ((n >>> (28 - 4 * i)) % 16))

/-- The SHA-256 hex digest (lowercase) of a byte list. -/
def sha256Hex (msg : List Nat) : String :=
  String.mk
    (((chunks64 (sha256Pad msg)).foldl sha256Compress SHA256_H0).map
      word32Hex).flatten

/-- Embedding of a `hashlib.sha256()` object: its abstract state is the
byte sequence fed to `update` so far. -/
structure Sha256Ctx where
  fed : List Nat

def Sha256Ctx.update (ctx : Sha256Ctx) (blob : List Nat) : Sha256Ctx :=
  ⟨ctx.fed ++ blob⟩

def Sha256Ctx.hexdigest (ctx : Sha256Ctx) : String :=
  sha256Hex ctx.fed

/-- Embedding of `HashingWriter`: `fileBytes` is the content written to
the underlying file, `sha` is `self._sha256`, `size` is `self.size`. -/
structure HashingWriter where
  fileBytes : List Nat
  sha : Sha256Ctx
  size : Nat

/-- Method `__init__`: fresh hash object, `size = 0`, empty file. -/
def HashingWriter.new : HashingWriter :=
  ⟨[], ⟨[]⟩, 0⟩

/-- Method `write(blob)`: the updated writer together with the return value
`len(blob)`. -/
def HashingWriter.write (w : HashingWriter) (blob : List Nat) :
    HashingWriter × Nat :=
  (⟨w.fileBytes ++ blob, w.sha.update blob, w.size + blob.length⟩,
   blob.length)

/-- The `sha256` property: `self._sha256.hexdigest()`. -/
def HashingWriter.sha256 (w : HashingWriter) : String :=
  w.sha.hexdigest

/-- Run a sequence of `write` calls. -/
def writeAll (w : HashingWriter) (blobs : List (List Nat)) : HashingWriter :=
  blobs.foldl (fun acc blob => (acc.write blob).1) w

end Buildutils

namespace Buildutils

/-- C4: for every tar entry passed through `_normalize_tar_entry`, the
output has uid=65534, gid=65534, uname='nobody', gname='nogroup', and
its mtime is `min(original_mtime, reference_timestamp)` when a reference
timestamp is set (i.e. is not the sentinel `-1`) and the original mtime
otherwise. -/
theorem normalize_tar_entry_fields (reference_timestamp : Int) (entry : TarEntry) :
    (normalize_tar_entry reference_timestamp entry).uid = 65534 ∧
    (normalize_tar_entry reference_timestamp entry).gid = 65534 ∧
    (normalize_tar_entry reference_timestamp entry).uname = "nobody" ∧
    (normalize_tar_entry reference_timestamp entry).gname = "nogroup" ∧
    (normalize_tar_entry reference_timestamp entry).mtime =
      if reference_timestamp = -1 then entry.mtime
      else min entry.mtime reference_timestamp := by
  refine ⟨rfl, rfl, rfl, rfl, ?_⟩
  simp only [normalize_tar_entry]
  by_cases hset : reference_timestamp = -1
  · simp [hset]
  · by_cases hgt : entry.mtime > reference_timestamp
    · simp [hset, hgt, min_eq_right (le_of_lt hgt)]
    · simp [hset, hgt, min_eq_left (not_lt.mp hgt)]

/-- C10: `_normalize_tar_entry` modifies only uid, gid, uname, gname and
mtime: name, size, mode, type, linkname, devmajor and devminor are left
unchanged, and mtime itself is unchanged whenever no reproducibility
epoch was set (`reference_timestamp = -1`) or the entry's mtime does not
exceed the reference timestamp. -/
theorem normalize_tar_entry_frame (reference_timestamp : Int) (entry : TarEntry) :
    (normalize_tar_entry reference_timestamp entry).name = entry.name ∧
    (normalize_tar_entry reference_timestamp entry).size = entry.size ∧
    (normalize_tar_entry reference_timestamp entry).mode = entry.mode ∧
    (normalize_tar_entry reference_timestamp entry).typ = entry.typ ∧
    (normalize_tar_entry reference_timestamp entry).linkname = entry.linkname ∧
    (normalize_tar_entry reference_timestamp entry).devmajor = entry.devmajor ∧
    (normalize_tar_entry reference_timestamp entry).devminor = entry.devminor ∧
    (reference_timestamp = -1 ∨ entry.mtime ≤ reference_timestamp →
      (normalize_tar_entry reference_timestamp entry).mtime = entry.mtime) := by
  refine ⟨rfl, rfl, rfl, rfl, rfl, rfl, rfl, fun h => ?_⟩
  simp only [normalize_tar_entry]
  rcases h with h | h
  · simp [h]
  · simp [not_lt.mpr h]

/-- C2 counterexample: `want_file_from_runtime` is not total.  Called
on the empty list of path segments — which `build_bootstrap` produces
for an archive entry named exactly `steam-runtime` — the very first
statement `path_parts[0]` raises `IndexError` (embedded as `none`), so
the predicate does not return a boolean on every input list. -/
theorem want_file_from_runtime_empty_raises :
    want_file_from_runtime [] = none := by
  rfl

/-- C2 amended: `want_file_from_runtime` returns a boolean and never
raises on every NON-empty list of path segments; only the empty list
(never produced by a well-formed `name/...` entry path, but produced by
an entry named exactly `steam-runtime`) makes it raise `IndexError`. -/
theorem want_file_from_runtime_total_of_nonempty
    (path_parts : List String) (h : path_parts ≠ []) :
    ∃ b, want_file_from_runtime path_parts = some b := by
  match path_parts with
  | [] => exact absurd rfl h
  | p :: rest =>
    simp only [want_file_from_runtime]
    repeat' first
      | exact ⟨_, rfl⟩
      | split

/-- Concrete instantiation of
`want_file_from_runtime_total_of_nonempty` at the singleton list
`['version.txt']`. -/
theorem want_file_from_runtime_total_witness :
    ∃ b, want_file_from_runtime ["version.txt"] = some b :=
  want_file_from_runtime_total_of_nonempty ["version.txt"] (by decide)

/-- C1: if an archive entry's path split on `/` contains a `..` segment
or its first segment is not `steam-runtime`, the extraction loop of
`build_bootstrap` raises the corresponding `ValueError` (the spec's
`PathSafetyError`) there, and nothing at or after the offending entry
is extracted: everything the run extracted comes from the clean prefix
before it. -/
theorem extractLoop_path_safety (pre : List String) (name : String)
    (post : List String)
    (hpre : ∀ m ∈ pre, entryOk m)
    (hbad : firstSegment name ≠ "steam-runtime" ∨ hasDotDot name = true) :
    (extractLoop (pre ++ name :: post)).2 = some (pathSafetyErrorOf name) ∧
    ∀ m ∈ (extractLoop (pre ++ name :: post)).1, m ∈ pre := by
  induction pre with
  | nil =>
    by_cases htop : firstSegment name = "steam-runtime"
    · rcases hbad with hbad | hbad
      · exact absurd htop hbad
      · simp [extractLoop, pathSafetyErrorOf, htop, hbad]
    · simp [extractLoop, pathSafetyErrorOf, htop]
  | cons q pre ih =>
    obtain ⟨hq1, hq2, hq3⟩ := hpre q (List.mem_cons_self q pre)
    have ih' := ih (fun m hm => hpre m (List.mem_cons_of_mem q hm))
    obtain ⟨b, hb⟩ := Option.isSome_iff_exists.mp hq3
    cases b with
    | true =>
      simp only [List.cons_append, extractLoop, hq1, hq2, hb]
      simp only [ne_eq, not_true_eq_false, Bool.false_eq_true, if_false]
      refine ⟨ih'.1, ?_⟩
      intro m hm
      rcases List.mem_cons.mp hm with hm | hm
      · exact hm ▸ List.mem_cons_self q pre
      · exact List.mem_cons_of_mem q (ih'.2 m hm)
    | false =>
      simp only [List.cons_append, extractLoop, hq1, hq2, hb]
      simp only [ne_eq, not_true_eq_false, Bool.false_eq_true, if_false]
      exact ⟨ih'.1, fun m hm => List.mem_cons_of_mem q (ih'.2 m hm)⟩

/-- Concrete instantiation of `extractLoop_path_safety`: after cleanly
processing `steam-runtime/run.sh`, the entry `steam-runtime/../x`
aborts the run with the traversal error and the entry after it is not
extracted. -/
theorem extractLoop_path_safety_witness :
    (extractLoop
        ["steam-runtime/run.sh", "steam-runtime/../x",
         "steam-runtime/version.txt"]).2
      = some (pathSafetyErrorOf "steam-runtime/../x") ∧
    ∀ m ∈ (extractLoop
        ["steam-runtime/run.sh", "steam-runtime/../x",
         "steam-runtime/version.txt"]).1,
      m ∈ ["steam-runtime/run.sh"] := by
  have h := extractLoop_path_safety ["steam-runtime/run.sh"]
    "steam-runtime/../x" ["steam-runtime/version.txt"]
    (by
      intro m hm
      simp only [List.mem_singleton] at hm
      subst hm
      exact ⟨by decide, by decide, by decide⟩)
    (Or.inr (by decide))
  exact h

/-- C3: whenever the accumulated sha256 differs from the manifest's
expected hash or the accumulated size differs from the expected size,
`download_client` with strict=True raises the `ValueError` (the spec's
`IntegrityError`); with strict=False it only logs warnings and
completes; and in non-strict mode the size check is still evaluated
(and reported) even when the hash check already failed. -/
theorem verifyAsset_mismatch (gotSha expectedSha : String)
    (gotSize expectedSize : Nat)
    (hmis : gotSha ≠ expectedSha ∨ gotSize ≠ expectedSize) :
    (∃ msg,
      (verifyAsset gotSha expectedSha gotSize expectedSize true).2
        = some msg) ∧
    (verifyAsset gotSha expectedSha gotSize expectedSize false).2 = none ∧
    (verifyAsset gotSha expectedSha gotSize expectedSize false).1 ≠ [] ∧
    (gotSha ≠ expectedSha → gotSize ≠ expectedSize →
      (verifyAsset gotSha expectedSha gotSize expectedSize false).1
        = [IntegrityWarning.hashMismatch, IntegrityWarning.sizeMismatch]) := by
  by_cases hsha : gotSha = expectedSha
  · rcases hmis with hmis | hmis
    · exact absurd hsha hmis
    · refine ⟨⟨"size mismatch (sha256 collision?!)", ?_⟩, ?_, ?_,
        fun hc _ => absurd hsha hc⟩ <;>
        simp [verifyAsset, hsha, hmis]
  · by_cases hsize : gotSize = expectedSize
    · refine ⟨⟨"sha256 mismatch", ?_⟩, ?_, ?_,
        fun _ hc => absurd hsize hc⟩ <;>
        simp [verifyAsset, hsha, hsize]
    · refine ⟨⟨"sha256 mismatch", ?_⟩, ?_, ?_, fun _ _ => ?_⟩ <;>
        simp [verifyAsset, hsha, hsize]

/-- Concrete instantiation of `verifyAsset_mismatch`: an asset whose
hash and size are both wrong. -/
theorem verifyAsset_mismatch_witness :
    (∃ msg, (verifyAsset "aa" "bb" 5 7 true).2 = some msg) ∧
    (verifyAsset "aa" "bb" 5 7 false).2 = none ∧
    (verifyAsset "aa" "bb" 5 7 false).1 ≠ [] ∧
    (("aa" : String) ≠ "bb" → (5 : Nat) ≠ 7 →
      (verifyAsset "aa" "bb" 5 7 false).1
        = [IntegrityWarning.hashMismatch, IntegrityWarning.sizeMismatch]) :=
  verifyAsset_mismatch "aa" "bb" 5 7 (Or.inl (by decide))

/-- C6 counterexample: the claim says every comparison between pins
from different owning archives raises `TypeError`, but `__eq__` does
not: on two pins with equal version strings and different archives it
returns the boolean `False`. -/
theorem pinEq_different_archives_returns_bool :
    pinEq ⟨"1", 0⟩ ⟨"1", 1⟩ = false := by
  decide

/-- C6 amended: between pins from different owning archives the ordered
comparisons `<`, `<=`, `>`, `>=` all raise `TypeError`, while `==`
returns `False` (a boolean, not an error). -/
theorem pin_comparisons_different_archives (p q : PinnedRuntimeVersion)
    (h : p.archive ≠ q.archive) :
    pinLt p q = Except.error () ∧
    pinLe p q = Except.error () ∧
    pinGt p q = Except.error () ∧
    pinGe p q = Except.error () ∧
    pinEq p q = false := by
  have heq : pinEq p q = false := by
    simp [pinEq, h]
  have hlt : pinLt p q = Except.error () := by
    simp [pinLt, h]
  have hlt' : pinLt q p = Except.error () := by
    simp [pinLt, Ne.symm h]
  exact ⟨hlt, by simp [pinLe, heq, hlt], by simp [pinGt, hlt'],
    by simp [pinGe, heq, hlt'], heq⟩

/-- Concrete instantiation of `pin_comparisons_different_archives` at
two pins with the same version string but different owning archives. -/
theorem pin_comparisons_different_archives_witness :
    pinLt ⟨"2", 0⟩ ⟨"2", 1⟩ = Except.error () ∧
    pinLe ⟨"2", 0⟩ ⟨"2", 1⟩ = Except.error () ∧
    pinGt ⟨"2", 0⟩ ⟨"2", 1⟩ = Except.error () ∧
    pinGe ⟨"2", 0⟩ ⟨"2", 1⟩ = Except.error () ∧
    pinEq ⟨"2", 0⟩ ⟨"2", 1⟩ = false :=
  pin_comparisons_different_archives ⟨"2", 0⟩ ⟨"2", 1⟩ (by decide)

/-- C7: between pins sharing the same owning archive, `<` returns a
boolean and holds exactly when the version strings compare less under
plain lexicographic (code-point) string comparison — not semantic
version ordering. -/
theorem pinLt_same_archive (p q : PinnedRuntimeVersion)
    (h : p.archive = q.archive) :
    pinLt p q = Except.ok (decide (p.version < q.version)) ∧
    (pinLt p q = Except.ok true ↔ p.version < q.version) := by
  have h1 : pinLt p q = Except.ok (decide (p.version < q.version)) := by
    simp [pinLt, h]
  refine ⟨h1, ?_⟩
  rw [h1]
  by_cases hv : p.version < q.version <;> simp [hv]

/-- Concrete instantiation of `pinLt_same_archive`: the pin with
version `"10"` compares less than the pin with version `"9"`, because
`'1' < '9'` lexicographically. -/
theorem pinLt_same_archive_witness :
    pinLt ⟨"10", 7⟩ ⟨"9", 7⟩ = Except.ok true := by
  have hlt : ("10" : String) < "9" := by
    rw [String.lt_iff_toList_lt]
    decide
  have h := (pinLt_same_archive ⟨"10", 7⟩ ⟨"9", 7⟩ rfl).1
  rw [h, decide_eq_true hlt]

/-- C5: the repackager adds entries in lexicographically sorted
relative-path order, and two runs over byte-identical staging content
(same per-member metadata, walk orders that enumerate the same members)
with the same reference timestamp produce identical output archives. -/
theorem repackage_sorted_and_deterministic (reference_timestamp : Int)
    (staging : String → TarEntry) (members₁ members₂ : List String)
    (h : members₁.Perm members₂) :
    List.Sorted (· ≤ ·)
      ((repackage reference_timestamp staging members₁).map TarEntry.name) ∧
    repackage reference_timestamp staging members₁
      = repackage reference_timestamp staging members₂ := by
  constructor
  · have hnames :
        (repackage reference_timestamp staging members₁).map TarEntry.name
          = members₁.insertionSort (· ≤ ·) := by
      simp only [repackage, List.map_map]
      exact List.map_id''
        (f := fun m =>
          TarEntry.name (normalize_tar_entry reference_timestamp
            { staging m with name := m }))
        (fun m => rfl) _
    rw [hnames]
    exact List.sorted_insertionSort (· ≤ ·) members₁
  · have hsort : members₁.insertionSort (· ≤ ·)
        = members₂.insertionSort (· ≤ ·) :=
      List.eq_of_perm_of_sorted
        ((List.perm_insertionSort _ members₁).trans
          (h.trans (List.perm_insertionSort _ members₂).symm))
        (List.sorted_insertionSort _ members₁)
        (List.sorted_insertionSort _ members₂)
    simp only [repackage, hsort]

/-- Concrete instantiation of `repackage_sorted_and_deterministic`: two
walk orders of the staged tree `a/, a/x.txt, b.txt`. -/
theorem repackage_deterministic_witness :
    List.Sorted (· ≤ ·)
      ((repackage 1000 (fun m => ⟨m, 0, 493, 0, "", 0, 0, "", "", 500, 0, 0⟩)
          ["b.txt", "a", "a/x.txt"]).map TarEntry.name) ∧
    repackage 1000 (fun m => ⟨m, 0, 493, 0, "", 0, 0, "", "", 500, 0, 0⟩)
        ["b.txt", "a", "a/x.txt"]
      = repackage 1000 (fun m => ⟨m, 0, 493, 0, "", 0, 0, "", "", 500, 0, 0⟩)
        ["a", "b.txt", "a/x.txt"] :=
  repackage_sorted_and_deterministic 1000
    (fun m => ⟨m, 0, 493, 0, "", 0, 0, "", "", 500, 0, 0⟩)
    ["b.txt", "a", "a/x.txt"] ["a", "b.txt", "a/x.txt"]
    ((List.Perm.swap "a" "b.txt" []).append_right ["a/x.txt"])

/-- C8 counterexample: the claim says a version string that parses as a
base-10 integer always yields a recorded UTC datetime, but
`"100000000000000000000"` parses as an integer and `load_manifest`
nevertheless fails: `datetime.datetime.fromtimestamp` raises for a
timestamp whose UTC date lies beyond year 9999, and that exception is
raised in the `else` clause, outside the `except ValueError` handler. -/
theorem load_manifest_datetime_overflow :
    pyIntOfString? "100000000000000000000" = some 100000000000000000000 ∧
    load_manifest_datetime "100000000000000000000" = Except.error () :=
  ⟨by decide, rfl⟩

/-- C8 amended: if the version string does not parse as a base-10
integer, the datetime is recorded as `None` without the parse failing;
if it parses as an integer whose UTC datetime is representable
(timestamps of years 1..9999), the derived UTC datetime is recorded;
but an integer outside that range makes `load_manifest` raise an
uncaught exception instead of recording anything. -/
theorem load_manifest_datetime_spec (version : String) :
    (pyIntOfString? version = none →
      load_manifest_datetime version = Except.ok none) ∧
    (∀ timestamp, pyIntOfString? version = some timestamp →
      ((-62135596800 ≤ timestamp ∧ timestamp ≤ 253402300799) →
        load_manifest_datetime version
            = Except.ok (fromtimestampUtc? timestamp) ∧
          (fromtimestampUtc? timestamp).isSome) ∧
      (¬ (-62135596800 ≤ timestamp ∧ timestamp ≤ 253402300799) →
        load_manifest_datetime version = Except.error ())) := by
  constructor
  · intro h
    simp [load_manifest_datetime, h]
  · intro timestamp hts
    constructor
    · intro hr
      have hf : (fromtimestampUtc? timestamp).isSome := by
        simp [fromtimestampUtc?, hr.1, hr.2]
      obtain ⟨dt, hdt⟩ := Option.isSome_iff_exists.mp hf
      refine ⟨?_, hf⟩
      simp [load_manifest_datetime, hts, hdt]
    · intro hr
      have hf : fromtimestampUtc? timestamp = none := by
        simp only [fromtimestampUtc?, if_neg hr]
      simp [load_manifest_datetime, hts, hf]

/-- Concrete instantiation of `load_manifest_datetime_spec`: the
version `"1610000000"` yields a recorded UTC datetime and the version
`"abcxyz"` yields `None` without an error. -/
theorem load_manifest_datetime_spec_witness :
    (load_manifest_datetime "1610000000"
        = Except.ok (fromtimestampUtc? 1610000000) ∧
      (fromtimestampUtc? 1610000000).isSome) ∧
    load_manifest_datetime "abcxyz" = Except.ok none :=
  ⟨((load_manifest_datetime_spec "1610000000").2 1610000000
      (by decide)).1 (by decide),
    (load_manifest_datetime_spec "abcxyz").1 (by decide)⟩

/-- Helper for the `HashingWriter` invariant: a run of `write` calls
adds the total blob length to `size` and appends the concatenation of
the blobs to the byte sequence fed to the hash object (and to the
file). -/
theorem writeAll_state (blobs : List (List Nat)) :
    ∀ w : HashingWriter,
      (writeAll w blobs).size = w.size + (blobs.map List.length).sum ∧
      (writeAll w blobs).sha.fed = w.sha.fed ++ blobs.flatten ∧
      (writeAll w blobs).fileBytes = w.fileBytes ++ blobs.flatten := by
  induction blobs with
  | nil => intro w; simp [writeAll]
  | cons blob blobs ih =>
    intro w
    have h := ih ⟨w.fileBytes ++ blob, w.sha.update blob,
      w.size + blob.length⟩
    simp only [writeAll, List.foldl_cons] at h ⊢
    simp only [HashingWriter.write] at h ⊢
    refine ⟨?_, ?_, ?_⟩
    · rw [h.1]; simp [Nat.add_assoc]
    · rw [h.2.1]; simp [Sha256Ctx.update]
    · rw [h.2.2]; simp

/-- C9: after any sequence of `write` calls on a fresh `HashingWriter`,
`size` equals the sum of the lengths of the blobs written, the `sha256`
property equals the SHA-256 hex digest of the concatenation of the
blobs in write order, and every `write` call returns the length of the
blob it was given. -/
theorem hashingWriter_invariant (blobs : List (List Nat)) :
    (writeAll HashingWriter.new blobs).size = (blobs.map List.length).sum ∧
    (writeAll HashingWriter.new blobs).sha256 = sha256Hex blobs.flatten ∧
    ∀ (w : HashingWriter) (blob : List Nat),
      (w.write blob).2 = blob.length := by
  have h := writeAll_state blobs HashingWriter.new
  refine ⟨?_, ?_, fun w blob => rfl⟩
  · rw [h.1]; simp [HashingWriter.new]
  · show (writeAll HashingWriter.new blobs).sha.hexdigest = _
    rw [Sha256Ctx.hexdigest, h.2.1]
    rfl

/-- Concrete instantiation of `normalize_tar_entry_frame`: with no
reference timestamp set, the entry (including its mtime) keeps every
field other than ownership. -/
theorem normalize_tar_entry_frame_witness :
    (normalize_tar_entry (-1)
        ⟨"a/x.txt", 7, 420, 0, "", 1000, 1000, "user", "user", 2000, 0, 0⟩).name
      = "a/x.txt" ∧
    (normalize_tar_entry (-1)
        ⟨"a/x.txt", 7, 420, 0, "", 1000, 1000, "user", "user", 2000, 0, 0⟩).mtime
      = 2000 := by
  have h := normalize_tar_entry_frame (-1)
    ⟨"a/x.txt", 7, 420, 0, "", 1000, 1000, "user", "user", 2000, 0, 0⟩
  exact ⟨h.1, h.2.2.2.2.2.2.2 (Or.inl rfl)⟩

end Buildutils
